import Mathlib

/-
Shallow embedding of the Beacon dynamic-DNS reconciliation engine:
src/src/types/index.ts, src/src/services/storage.ts,
src/src/services/ipDetector.ts (and the variant in src/unnamed/part_000),
src/src/services/cloudflare.ts, and the IpMonitor class in
src/src/services/logger.ts.

External IO (HTTP requests to IP sources and to the DNS provider, the
JSON files on disk, timers) is modelled by explicit environment values
that describe the outcome of each external interaction, and by explicit
state passing for the persisted configuration and update history.
Observable calls made by a reconciliation cycle are collected as an
ordered effect trace.
-/

/-- Persisted configuration (types/index.ts, interface Config).  Fields the
engine never branches on (theme, createdAt, updatedAt, lastForceUpdateTime)
are omitted. -/
structure Config where
  checkIntervalMinutes : Nat
  lastKnownIp : Option String
deriving DecidableEq

/-- Outcome field of an update-history entry (types/index.ts, literal union
of the strings success and failed). -/
inductive EntryStatus
  | success
  | failed
deriving DecidableEq

/-- One update-history entry (types/index.ts, interface UpdateEntry).  The
uuid and the ISO timestamp string are modelled as naturals. -/
structure UpdateEntry where
  id : Nat
  timestamp : Nat
  oldIp : Option String
  newIp : String
  status : EntryStatus
  dnsRecordUpdated : Bool
deriving DecidableEq

/-- The two file-backed stores together (data/config.json and the updates
array of data/history.json). -/
structure Storage where
  config : Config
  history : List UpdateEntry
deriving DecidableEq

/-- storage.ts, StorageService.addUpdateEntry: unshift the entry onto the
updates array, then slice to the first 10 when the length exceeds 10. -/
def StorageService.addUpdateEntry (s : Storage) (entry : UpdateEntry) : Storage :=
  { s with
    history :=
      if (entry :: s.history).length > 10 then (entry :: s.history).take 10
      else entry :: s.history }

/-- storage.ts, StorageService.updateLastKnownIp: read the config, set
lastKnownIp, write it back. -/
def StorageService.updateLastKnownIp (s : Storage) (ip : String) : Storage :=
  { s with config := { s.config with lastKnownIp := some ip } }

/-- A DNS resource record as returned by the provider (cloudflare.ts,
interface CloudflareRecord; proxied is an optional boolean there). -/
structure DnsRecord where
  id : String
  type : String
  name : String
  content : String
  ttl : Nat
  proxied : Option Bool
deriving DecidableEq

/-- Outcome of CloudflareService.getDnsRecord as observed by the monitor:
either the call threw (auth error, access error, transport error), or it
returned a record, or it returned null (record absent or tolerated API
error). -/
inductive DnsReadResult
  | threw
  | ok (record : Option DnsRecord)
deriving DecidableEq

/-- logger.ts line 256: dnsRecordIp = dnsRecord?.content || null.  A missing
record or an empty content string both give null. -/
def dnsIpOfRecord : Option DnsRecord → Option String
  | some r => if r.content = "" then none else some r.content
  | none => none

/-- The javascript expression a || b for nullable strings, where a is
already null-or-nonempty (logger.ts line 359, oldIp field). -/
def orIp : Option String → Option String → Option String
  | some c, _ => some c
  | none, b => b

/-- Whether the DNS read attempt left dnsRecordAccessible true
(logger.ts lines 252-275). -/
def dnsAccessibleB : DnsReadResult → Bool
  | .threw => false
  | .ok _ => true

/-- The dnsRecordIp value the cycle compares against (logger.ts lines
252-275): null when the read threw, else the content-or-null of the
returned record. -/
def dnsReadIp : DnsReadResult → Option String
  | .threw => none
  | .ok record => dnsIpOfRecord record

/-- Environment of one reconciliation cycle: the outcome of every external
interaction the cycle may perform, plus the fresh uuids and timestamps it
may consume. -/
structure CycleEnv where
  /-- IpDetector.getCurrentIp: some address, or none when it threw. -/
  detected : Option String
  /-- StorageService.readConfig throws (logger.ts line 249). -/
  configReadFail : Bool
  /-- Outcome of CloudflareService.getDnsRecord (logger.ts line 255). -/
  dnsRead : DnsReadResult
  /-- StorageService.updateLastKnownIp throws (logger.ts line 314). -/
  persistIpFail : Bool
  /-- Return value of CloudflareService.updateDnsRecord (logger.ts line 328);
  that function catches internally and never throws. -/
  writeOk : Bool
  /-- CLOUDFLARE_API_TOKEN or CLOUDFLARE_ZONE_ID contains the placeholder
  substring (logger.ts lines 369-370). -/
  testCreds : Bool
  /-- uuid and timestamp of the update entry of a changed cycle. -/
  entryId : Nat
  entryTime : Nat
  /-- uuid and timestamp of the entry written by the outer catch block. -/
  failEntryId : Nat
  failEntryTime : Nat
deriving DecidableEq

/-- Transient monitor status (logger.ts line 159). -/
inductive Status
  | active
  | checking
  | error
deriving DecidableEq

/-- The error a cycle can throw past performIpCheck. -/
inductive CheckError
  | detectionFailed
  | configReadFailed
  | persistFailed
  | dnsUpdateFailed
deriving DecidableEq

/-- How performIpCheck finished: a normal return of { ipChanged, currentIp },
or a rethrown error. -/
inductive CycleOutcome
  | ok (ipChanged : Bool) (currentIp : String)
  | threw (e : CheckError)
deriving DecidableEq

/-- Observable calls a cycle makes, in order. -/
inductive Effect
  | persistIp (ip : String)
  | writeRecord (ip : String)
  | appendEntry (entry : UpdateEntry)
deriving DecidableEq

def isAppendEffect : Effect → Bool
  | .appendEntry _ => true
  | _ => false

/-- Result of one run of IpMonitor.performIpCheck: its outcome, the storage
afterwards, the final value of this.status, and the ordered effect trace.
The isChecking flag is cleared by the finally block on every path, so it is
not part of the result. -/
structure CycleResult where
  outcome : CycleOutcome
  storage : Storage
  status : Status
  effects : List Effect
deriving DecidableEq

/-- logger.ts lines 408-415: the entry recorded by the outer catch block. -/
def checkFailedEntry (env : CycleEnv) : UpdateEntry :=
  { id := env.failEntryId, timestamp := env.failEntryTime
    oldIp := none, newIp := "check_failed"
    status := .failed, dnsRecordUpdated := false }

/-- logger.ts lines 356-363: the entry recorded by a changed cycle, built
from the pre-update config (read at line 249) and the DNS-read address. -/
def mainEntry (s : Storage) (env : CycleEnv) (currentIp : String)
    (dnsRecordIp : Option String) : UpdateEntry :=
  { id := env.entryId, timestamp := env.entryTime
    oldIp := orIp dnsRecordIp s.config.lastKnownIp
    newIp := currentIp
    status := if env.writeOk then .success else .failed
    dnsRecordUpdated := env.writeOk }

/-- logger.ts lines 403-423, the outer catch block: set status to error,
append a check_failed entry (its own failure being swallowed), rethrow.
Reached only before any storage mutation of the cycle succeeded, so no
earlier effects precede it. -/
def catchReturn (s : Storage) (e : CheckError) (env : CycleEnv) : CycleResult :=
  { outcome := .threw e
    storage := StorageService.addUpdateEntry s (checkFailedEntry env)
    status := .error
    effects := [Effect.appendEntry (checkFailedEntry env)] }

/-- logger.ts lines 277-401: the body of performIpCheck after the current
IP, the config and the DNS read outcome are in hand. -/
def IpMonitor.checkBody (s : Storage) (env : CycleEnv) (currentIp : String)
    (dnsRecordIp : Option String) (dnsRecordAccessible : Bool) : CycleResult :=
  -- lines 284-287: ipChangedFromStored, ipChangedFromDns, ipChanged
  if s.config.lastKnownIp ≠ some currentIp ∨
      (dnsRecordAccessible = true ∧ dnsRecordIp ≠ some currentIp) then
    -- line 314: StorageService.updateLastKnownIp(currentIp), which may throw
    if env.persistIpFail then catchReturn s .persistFailed env
    else
      let s1 := StorageService.updateLastKnownIp s currentIp
      -- line 328: dnsUpdateSuccess = await CloudflareService.updateDnsRecord,
      -- then lines 356-366: build and store the update entry
      let entry := mainEntry s env currentIp dnsRecordIp
      let s2 := StorageService.addUpdateEntry s1 entry
      let baseEffects := [Effect.persistIp currentIp, Effect.writeRecord currentIp,
        Effect.appendEntry entry]
      -- lines 369-371: isTestMode
      if env.testCreds = true ∨ dnsRecordAccessible = false then
        { outcome := .ok true currentIp, storage := s2, status := .active
          effects := baseEffects }
      else if env.writeOk then
        { outcome := .ok true currentIp, storage := s2, status := .active
          effects := baseEffects }
      else
        -- line 387: throw new Error, landing in the outer catch block,
        -- which appends a second, check_failed entry and rethrows
        { outcome := .threw .dnsUpdateFailed
          storage := StorageService.addUpdateEntry s2 (checkFailedEntry env)
          status := .error
          effects := baseEffects ++ [Effect.appendEntry (checkFailedEntry env)] }
  else
    -- lines 390-399: no change, status active, nothing written
    { outcome := .ok false currentIp, storage := s, status := .active
      effects := [] }

/-- logger.ts lines 239-427, IpMonitor.performIpCheck. -/
def IpMonitor.performIpCheck (s : Storage) (env : CycleEnv) : CycleResult :=
  match env.detected with
  | none => catchReturn s .detectionFailed env
  | some currentIp =>
    if env.configReadFail then catchReturn s .configReadFailed env
    else
      match env.dnsRead with
      | .threw => IpMonitor.checkBody s env currentIp none false
      | .ok record => IpMonitor.checkBody s env currentIp (dnsIpOfRecord record) true

/-- Return shape of IpMonitor.forceCheck. -/
structure ForceCheckResult where
  success : Bool
  ipChanged : Bool
  currentIp : Option String
  message : String
deriving DecidableEq

/-- The string interpolated into the Check failed message. -/
def checkErrorMessage : CheckError → String
  | .detectionFailed => "Failed to detect IP address"
  | .configReadFailed => "Failed to read configuration"
  | .persistFailed => "Failed to update last known IP"
  | .dnsUpdateFailed => "DNS update failed"

/-- In-memory monitor fields read and written by forceCheck. -/
structure MonitorState where
  isChecking : Bool
  status : Status
deriving DecidableEq

structure ForceCheckOut where
  result : ForceCheckResult
  monitor : MonitorState
  storage : Storage
  effects : List Effect
deriving DecidableEq

/-- logger.ts lines 185-211, IpMonitor.forceCheck: reject immediately when
isChecking is set; otherwise run one cycle, catch anything it throws, and
report.  The finally block of performIpCheck clears isChecking on both
exits. -/
def IpMonitor.forceCheck (m : MonitorState) (s : Storage) (env : CycleEnv) :
    ForceCheckOut :=
  if m.isChecking then
    { result := { success := false, ipChanged := false, currentIp := none
                  message := "Check already in progress" }
      monitor := m, storage := s, effects := [] }
  else
    let r := IpMonitor.performIpCheck s env
    match r.outcome with
    | .ok ipChanged currentIp =>
      { result := { success := true, ipChanged := ipChanged
                    currentIp := some currentIp
                    message := if ipChanged then "IP address updated"
                      else "No change detected" }
        monitor := { isChecking := false, status := r.status }
        storage := r.storage, effects := r.effects }
    | .threw e =>
      { result := { success := false, ipChanged := false, currentIp := none
                    message := "Check failed: " ++ checkErrorMessage e }
        monitor := { isChecking := false, status := r.status }
        storage := r.storage, effects := r.effects }

/-- logger.ts lines 223-237: delay armed by scheduleNextCheck, read from the
config at scheduling time. -/
def scheduleDelayMs (s : Storage) : Nat := s.config.checkIntervalMinutes * 60 * 1000

/-- Whole-engine state for the timer-driven loop: a clock (milliseconds), the
pending one-shot timer if armed (its delay), whether a timer-driven or
initial cycle is in flight, the monitor status, and the stores. -/
structure EngineState where
  clock : Nat
  timerDelay : Option Nat
  inFlight : Bool
  monitorStatus : Status
  storage : Storage
deriving DecidableEq

/-- Events of the engine loop.  startEv begins the immediate initial cycle of
start(); timerFire is the armed setTimeout callback beginning a cycle;
finishCycle is the completion of the in-flight timer-driven or initial cycle,
whose continuation (both the then and the catch branch) calls
scheduleNextCheck; stopEv is stop(); settingsUpdate is an external settings
write; forceEv is a forceCheck request handled to completion. -/
inductive Ev
  | startEv
  | timerFire
  | finishCycle (env : CycleEnv)
  | stopEv
  | settingsUpdate (minutes : Nat)
  | forceEv (env : CycleEnv)

/-- One engine transition (logger.ts lines 161-237).  stop() only clears the
pending timeout; it sets no flag that the completion continuation of an
in-flight cycle would consult. -/
def step (st : EngineState) : Ev → EngineState
  | .startEv => { st with inFlight := true, monitorStatus := .checking }
  | .timerFire =>
    match st.timerDelay with
    | none => st
    | some d =>
      { st with
        clock := st.clock + d
        timerDelay := none
        inFlight := true
        monitorStatus := .checking }
  | .finishCycle env =>
    if st.inFlight then
      let r := IpMonitor.performIpCheck st.storage env
      { st with
        inFlight := false
        monitorStatus := r.status
        storage := r.storage
        timerDelay := some (scheduleDelayMs r.storage) }
    else st
  | .stopEv => { st with timerDelay := none }
  | .settingsUpdate m =>
    { st with storage :=
      { st.storage with config := { st.storage.config with checkIntervalMinutes := m } } }
  | .forceEv env =>
    if st.inFlight then st
    else
      let out := IpMonitor.forceCheck
        { isChecking := false, status := st.monitorStatus } st.storage env
      { st with monitorStatus := out.monitor.status, storage := out.storage }

def runEngine (st : EngineState) : List Ev → EngineState
  | [] => st
  | e :: es => runEngine (step st e) es

/-- A sequence of reconciliation cycles acting on storage. -/
def runCycles (s : Storage) : List CycleEnv → Storage
  | [] => s
  | e :: es => runCycles (IpMonitor.performIpCheck s e).storage es

/-- ipDetector.ts line 7. -/
def IpDetector.MAX_RETRIES : Nat := 3

/-- ipDetector.ts lines 65-83, the retry loop of retryOperation: a source is
a map from attempt index to the outcome of that call; fuel counts the calls
still allowed.  Returns the first success together with the number of calls
made. -/
def IpDetector.runAttempts (op : Nat → Option String) :
    Nat → Nat → Option String × Nat
  | _, 0 => (none, 0)
  | start, fuel + 1 =>
    match op start with
    | some ip => (some ip, 1)
    | none =>
      let r := IpDetector.runAttempts op (start + 1) fuel
      (r.1, r.2 + 1)

/-- ipDetector.ts retryOperation: the loop runs attempt = 0 .. MAX_RETRIES
inclusive, one call per iteration. -/
def IpDetector.retryOperation (op : Nat → Option String) : Option String × Nat :=
  IpDetector.runAttempts op 0 (IpDetector.MAX_RETRIES + 1)

/-- getCurrentIp over the configured source list (the loop form of
src/unnamed/part_000 lines 10-63; the two-source version of
src/src/services/ipDetector.ts is the instance with a two-element list).
Returns the detected address, if any, with the per-source call counts of
the sources actually consulted. -/
def IpDetector.getCurrentIp :
    List (Nat → Option String) → Option String × List Nat
  | [] => (none, [])
  | src :: rest =>
    let r := IpDetector.retryOperation src
    match r.1 with
    | some ip => (some ip, [r.2])
    | none =>
      let rr := IpDetector.getCurrentIp rest
      (rr.1, r.2 :: rr.2)

/-- The PUT payload built by CloudflareService.updateRecord
(cloudflare.ts lines 121-127). -/
structure UpdatePayload where
  type : String
  name : String
  content : String
  ttl : Nat
  proxied : Bool
deriving DecidableEq

/-- Outcome of the GET in CloudflareService.getDnsRecord as seen by
updateDnsRecord: threw (auth error, transport error, bad JSON), a record,
or null. -/
inductive GetResult
  | threw
  | found (r : DnsRecord)
  | absent
deriving DecidableEq

/-- Outcome of the PUT issued by updateRecord: the transport threw, or the
provider answered with a success flag. -/
inductive PutResult
  | threw
  | response (success : Bool)
deriving DecidableEq

/-- cloudflare.ts lines 121-127: preserve every field of the existing
record, replacing only content; an absent proxied flag is written as
false. -/
def CloudflareService.mkPayload (existing : DnsRecord) (newIp : String) :
    UpdatePayload :=
  { type := existing.type, name := existing.name, content := newIp
    ttl := existing.ttl, proxied := existing.proxied.getD false }

/-- cloudflare.ts lines 24-74, CloudflareService.updateDnsRecord: fetch the
record; a missing record or any thrown error yields false; otherwise issue
one PUT with the preserved payload and report true exactly when the provider
answered success, false on a non-success response or a transport error,
never raising past the caller.  The second component lists the PUT payloads
issued. -/
def CloudflareService.updateDnsRecord (getR : GetResult) (putR : PutResult)
    (newIp : String) : Bool × List UpdatePayload :=
  match getR with
  | .threw => (false, [])
  | .absent => (false, [])
  | .found r =>
    let payload := CloudflareService.mkPayload r newIp
    match putR with
    | .threw => (false, [payload])
    | .response true => (true, [payload])
    | .response false => (false, [payload])

/- Concrete sample values used by witnesses and counterexamples. -/

def cfgA : Config := { checkIntervalMinutes := 5, lastKnownIp := some "198.51.100.1" }

def storA : Storage := { config := cfgA, history := [] }

def recA : DnsRecord :=
  { id := "rec1", type := "A", name := "home.example.com"
    content := "198.51.100.1", ttl := 300, proxied := some true }

/-- A cycle where the detected address moved to 198.51.100.2, the DNS read
succeeded and agreed with the persisted address, and the write succeeds
under real credentials. -/
def envA : CycleEnv :=
  { detected := some "198.51.100.2", configReadFail := false
    dnsRead := .ok (some recA), persistIpFail := false
    writeOk := true, testCreds := false
    entryId := 1, entryTime := 100, failEntryId := 2, failEntryTime := 101 }

/-- Same cycle but the provider write fails, still under real credentials. -/
def envB : CycleEnv :=
  { detected := some "198.51.100.2", configReadFail := false
    dnsRead := .ok (some recA), persistIpFail := false
    writeOk := false, testCreds := false
    entryId := 1, entryTime := 100, failEntryId := 2, failEntryTime := 101 }

/-- A cycle where nothing moved: detected, persisted and DNS record agree. -/
def envC : CycleEnv :=
  { detected := some "198.51.100.1", configReadFail := false
    dnsRead := .ok (some recA), persistIpFail := false
    writeOk := true, testCreds := false
    entryId := 3, entryTime := 102, failEntryId := 4, failEntryTime := 103 }

def engine0 : EngineState :=
  { clock := 0, timerDelay := none, inFlight := false
    monitorStatus := .active, storage := storA }

def engineBusy : EngineState :=
  { clock := 0, timerDelay := none, inFlight := true
    monitorStatus := .checking, storage := storA }

/-- A source whose every attempt fails. -/
def srcFailA : Nat → Option String := fun _ => none

/-- A source that answers on its first attempt. -/
def srcB : Nat → Option String := fun _ => some "203.0.113.7"

def monBusy : MonitorState := { isChecking := true, status := .checking }

def monIdle : MonitorState := { isChecking := false, status := .active }

/- Helper lemmas about the storage operations. -/

theorem addUpdateEntry_history (s : Storage) (e : UpdateEntry) :
    (StorageService.addUpdateEntry s e).history = (e :: s.history).take 10 := by
  unfold StorageService.addUpdateEntry
  by_cases h : (e :: s.history).length > 10
  · simp [h]
  · simp [h, List.take_of_length_le (Nat.le_of_not_lt h)]

theorem addUpdateEntry_config (s : Storage) (e : UpdateEntry) :
    (StorageService.addUpdateEntry s e).config = s.config := rfl

theorem take_cons_take (x : UpdateEntry) (l : List UpdateEntry) :
    (x :: l.take 10).take 10 = (x :: l).take 10 := by
  rw [show (10 : Nat) = 9 + 1 from rfl, List.take_succ_cons, List.take_succ_cons,
    List.take_take]
  norm_num

theorem forceCheck_clears (m : MonitorState) (s : Storage) (env : CycleEnv)
    (h : m.isChecking = false) :
    (IpMonitor.forceCheck m s env).monitor.isChecking = false := by
  unfold IpMonitor.forceCheck
  cases hr : (IpMonitor.performIpCheck s env).outcome <;> simp [h, hr]

theorem forceCheck_not_rejected (m : MonitorState) (s : Storage) (env : CycleEnv)
    (h : m.isChecking = false) :
    (IpMonitor.forceCheck m s env).result.message ≠ "Check already in progress" := by
  unfold IpMonitor.forceCheck
  cases hr : (IpMonitor.performIpCheck s env).outcome with
  | ok c ip => cases c <;> simp [h, hr]
  | threw e => cases e <;> simp [h, hr] <;> decide

/-- Claim C3: a force-check issued while the single-flight flag is set is
rejected immediately and deterministically with the rejection record, the
monitor and the storage are untouched, and no cycle effect occurs, for every
monitor state with the flag set. -/
theorem c3_single_flight (m : MonitorState) (s : Storage) (env : CycleEnv)
    (h : m.isChecking = true) :
    IpMonitor.forceCheck m s env =
      { result := { success := false, ipChanged := false, currentIp := none
                    message := "Check already in progress" }
        monitor := m
        storage := s
        effects := [] } := by
  simp [IpMonitor.forceCheck, h]

/-- Witness for C3 at a concrete busy monitor state. -/
theorem c3_single_flight_witness :
    IpMonitor.forceCheck monBusy storA envA =
      { result := { success := false, ipChanged := false, currentIp := none
                    message := "Check already in progress" }
        monitor := monBusy
        storage := storA
        effects := [] } :=
  c3_single_flight monBusy storA envA rfl

/-- Claim C9: when the provider read finds the record, updateDnsRecord
issues exactly one PUT whose payload keeps the record type, name and ttl,
keeps a present proxied flag, and replaces only the content with the new
address; and the call reports true exactly when the record was found and the
provider answered success, returning false (not raising) on any transport
error or non-success response. -/
theorem c9_write_frame (getR : GetResult) (putR : PutResult) (newIp : String) :
    (∀ r : DnsRecord, getR = GetResult.found r →
      (CloudflareService.updateDnsRecord getR putR newIp).2 =
        [CloudflareService.mkPayload r newIp] ∧
      (CloudflareService.mkPayload r newIp).type = r.type ∧
      (CloudflareService.mkPayload r newIp).name = r.name ∧
      (CloudflareService.mkPayload r newIp).ttl = r.ttl ∧
      (CloudflareService.mkPayload r newIp).content = newIp ∧
      (∀ b : Bool, r.proxied = some b →
        (CloudflareService.mkPayload r newIp).proxied = b)) ∧
    ((CloudflareService.updateDnsRecord getR putR newIp).1 = true ↔
      (∃ r : DnsRecord, getR = GetResult.found r) ∧
        putR = PutResult.response true) := by
  constructor
  · rintro r rfl
    refine ⟨?_, rfl, rfl, rfl, rfl, ?_⟩
    · cases putR with
      | threw => rfl
      | response b => cases b <;> rfl
    · intro b hb
      simp [CloudflareService.mkPayload, hb]
  · cases getR with
    | threw =>
      cases putR with
      | threw => simp [CloudflareService.updateDnsRecord]
      | response b => cases b <;> simp [CloudflareService.updateDnsRecord]
    | absent =>
      cases putR with
      | threw => simp [CloudflareService.updateDnsRecord]
      | response b => cases b <;> simp [CloudflareService.updateDnsRecord]
    | found r =>
      cases putR with
      | threw => simp [CloudflareService.updateDnsRecord]
      | response b => cases b <;> simp [CloudflareService.updateDnsRecord]

/-- Witness for C9 at the sample record and address. -/
theorem c9_write_frame_witness :
    (CloudflareService.updateDnsRecord (GetResult.found recA)
        (PutResult.response true) "198.51.100.2").2 =
      [CloudflareService.mkPayload recA "198.51.100.2"] ∧
    (CloudflareService.updateDnsRecord (GetResult.found recA)
        (PutResult.response true) "198.51.100.2").1 = true :=
  ⟨((c9_write_frame (GetResult.found recA) (PutResult.response true)
      "198.51.100.2").1 recA rfl).1,
   (c9_write_frame (GetResult.found recA) (PutResult.response true)
      "198.51.100.2").2.mpr ⟨⟨recA, rfl⟩, rfl⟩⟩

/-- Claim C10: when no cycle is in flight, forceCheck always returns a
defined result (errors thrown by the cycle are caught and reported with
success false, ipChanged false and a null currentIp), the single-flight flag
is clear after every exit path, and a later force-check issued from the
resulting monitor state is never rejected as already in progress. -/
theorem c10_force_total (m : MonitorState) (s : Storage) (env : CycleEnv)
    (h : m.isChecking = false) :
    (IpMonitor.forceCheck m s env).monitor.isChecking = false ∧
    (∀ e : CheckError, (IpMonitor.performIpCheck s env).outcome = .threw e →
      (IpMonitor.forceCheck m s env).result =
        { success := false, ipChanged := false, currentIp := none
          message := "Check failed: " ++ checkErrorMessage e }) ∧
    (∀ (s2 : Storage) (env2 : CycleEnv),
      (IpMonitor.forceCheck (IpMonitor.forceCheck m s env).monitor s2
        env2).result.message ≠ "Check already in progress") := by
  refine ⟨forceCheck_clears m s env h, ?_, ?_⟩
  · intro e he
    simp [IpMonitor.forceCheck, h, he]
  · intro s2 env2
    exact forceCheck_not_rejected _ s2 env2 (forceCheck_clears m s env h)

/-- Witness for C10 at a concrete idle monitor state. -/
theorem c10_force_total_witness :
    (IpMonitor.forceCheck monIdle storA envA).monitor.isChecking = false ∧
    (IpMonitor.forceCheck (IpMonitor.forceCheck monIdle storA envA).monitor
      storA envB).result.message ≠ "Check already in progress" :=
  ⟨(c10_force_total monIdle storA envA rfl).1,
   (c10_force_total monIdle storA envA rfl).2.2 storA envB⟩

/-- Claim C1: in a cycle where the DNS read succeeded and the detected
address differs from the persisted last-known address, the engine persists
the detected address, then calls the provider write with it, then appends
one entry whose oldIp is the DNS-read address if available else the previous
persisted address, whose newIp is the detected address, whose outcome is
success exactly when the write succeeded and whose dnsRecordUpdated is the
write flag; and the cycle resolves to active when the write succeeds. -/
theorem c1_changed_cycle (s : Storage) (env : CycleEnv) (d : String)
    (rec : Option DnsRecord)
    (hdet : env.detected = some d)
    (hcfg : env.configReadFail = false)
    (hdns : env.dnsRead = DnsReadResult.ok rec)
    (hp : env.persistIpFail = false)
    (hdiff : s.config.lastKnownIp ≠ some d) :
    (IpMonitor.performIpCheck s env).effects.take 3 =
      [Effect.persistIp d, Effect.writeRecord d,
       Effect.appendEntry (mainEntry s env d (dnsIpOfRecord rec))] ∧
    (IpMonitor.performIpCheck s env).storage.config.lastKnownIp = some d ∧
    (env.writeOk = true → (IpMonitor.performIpCheck s env).status = Status.active) := by
  cases hw : env.writeOk <;> cases ht : env.testCreds <;>
    simp [IpMonitor.performIpCheck, IpMonitor.checkBody, hdet, hcfg, hdns, hp, hw, ht,
      hdiff, StorageService.addUpdateEntry, StorageService.updateLastKnownIp]

/-- Witness for C1: the scenario of the spec, persisted and DNS record at
198.51.100.1, detected 198.51.100.2, write succeeding. -/
theorem c1_changed_cycle_witness :
    (IpMonitor.performIpCheck storA envA).effects.take 3 =
      [Effect.persistIp "198.51.100.2", Effect.writeRecord "198.51.100.2",
       Effect.appendEntry
         (mainEntry storA envA "198.51.100.2" (dnsIpOfRecord (some recA)))] ∧
    (IpMonitor.performIpCheck storA envA).storage.config.lastKnownIp =
      some "198.51.100.2" ∧
    (envA.writeOk = true →
      (IpMonitor.performIpCheck storA envA).status = Status.active) :=
  c1_changed_cycle storA envA "198.51.100.2" (some recA) rfl rfl rfl rfl (by decide)

/-- Claim C4: a cycle updates exactly when the persisted address disagrees
with the detected one, or the DNS read is accessible and its address
disagrees; and when detected, persisted and DNS record address all agree,
no provider write occurs, nothing is stored, and the cycle resolves to
active. -/
theorem c4_change_condition (s : Storage) (env : CycleEnv) (d : String)
    (hdet : env.detected = some d)
    (hcfg : env.configReadFail = false)
    (hp : env.persistIpFail = false) :
    ((s.config.lastKnownIp ≠ some d ∨
        (dnsAccessibleB env.dnsRead = true ∧ dnsReadIp env.dnsRead ≠ some d)) ↔
      Effect.writeRecord d ∈ (IpMonitor.performIpCheck s env).effects) ∧
    (s.config.lastKnownIp = some d ∧ dnsAccessibleB env.dnsRead = true ∧
        dnsReadIp env.dnsRead = some d →
      (IpMonitor.performIpCheck s env).effects = [] ∧
      (IpMonitor.performIpCheck s env).storage = s ∧
      (IpMonitor.performIpCheck s env).status = Status.active) := by
  cases hdr : env.dnsRead with
  | threw =>
    by_cases h1 : s.config.lastKnownIp = some d <;>
      simp [IpMonitor.performIpCheck, IpMonitor.checkBody, hdet, hcfg, hp, hdr, h1,
        dnsAccessibleB, dnsReadIp,
        StorageService.addUpdateEntry, StorageService.updateLastKnownIp]
  | ok rec =>
    by_cases h1 : s.config.lastKnownIp = some d <;>
    by_cases h2 : dnsIpOfRecord rec = some d <;>
    cases hw : env.writeOk <;> cases ht : env.testCreds <;>
      simp [IpMonitor.performIpCheck, IpMonitor.checkBody, hdet, hcfg, hp, hdr,
        h1, h2, hw, ht, dnsAccessibleB, dnsReadIp,
        StorageService.addUpdateEntry, StorageService.updateLastKnownIp]

/-- Witness for C4: the idempotent scenario, all three addresses equal to
198.51.100.1. -/
theorem c4_change_condition_witness :
    (IpMonitor.performIpCheck storA envC).effects = [] ∧
    (IpMonitor.performIpCheck storA envC).storage = storA ∧
    (IpMonitor.performIpCheck storA envC).status = Status.active :=
  (c4_change_condition storA envC "198.51.100.1" rfl rfl rfl).2 (by decide)

/-- Claim C6: a changed cycle resolves to active when the provider write
succeeded or the deployment is recognized as degraded (placeholder test
credentials or an inaccessible DNS read); otherwise, a provider write
failure under real credentials appends an entry with outcome failed and
dnsRecordUpdated false, the cycle resolves to error, and the write failure
is rethrown. -/
theorem c6_resolution (s : Storage) (env : CycleEnv) (d : String)
    (hdet : env.detected = some d)
    (hcfg : env.configReadFail = false)
    (hp : env.persistIpFail = false)
    (hdiff : s.config.lastKnownIp ≠ some d) :
    ((env.writeOk = true ∨ env.testCreds = true ∨ dnsAccessibleB env.dnsRead = false) →
      (IpMonitor.performIpCheck s env).status = Status.active) ∧
    (env.writeOk = false ∧ env.testCreds = false ∧ dnsAccessibleB env.dnsRead = true →
      (IpMonitor.performIpCheck s env).status = Status.error ∧
      (IpMonitor.performIpCheck s env).outcome =
        CycleOutcome.threw CheckError.dnsUpdateFailed ∧
      Effect.appendEntry (mainEntry s env d (dnsReadIp env.dnsRead)) ∈
        (IpMonitor.performIpCheck s env).effects ∧
      (mainEntry s env d (dnsReadIp env.dnsRead)).status = EntryStatus.failed ∧
      (mainEntry s env d (dnsReadIp env.dnsRead)).dnsRecordUpdated = false) := by
  cases hdr : env.dnsRead <;> cases hw : env.writeOk <;> cases ht : env.testCreds <;>
    simp [IpMonitor.performIpCheck, IpMonitor.checkBody, hdet, hcfg, hp, hdr, hw, ht,
      hdiff, dnsAccessibleB, dnsReadIp, mainEntry,
      StorageService.addUpdateEntry, StorageService.updateLastKnownIp]

/-- Witness for C6: the write-failure scenario of the spec under real
credentials. -/
theorem c6_resolution_witness :
    (IpMonitor.performIpCheck storA envB).status = Status.error ∧
    (IpMonitor.performIpCheck storA envB).outcome =
      CycleOutcome.threw CheckError.dnsUpdateFailed ∧
    Effect.appendEntry (mainEntry storA envB "198.51.100.2" (dnsReadIp envB.dnsRead)) ∈
      (IpMonitor.performIpCheck storA envB).effects ∧
    (mainEntry storA envB "198.51.100.2" (dnsReadIp envB.dnsRead)).status =
      EntryStatus.failed ∧
    (mainEntry storA envB "198.51.100.2" (dnsReadIp envB.dnsRead)).dnsRecordUpdated =
      false :=
  (c6_resolution storA envB "198.51.100.2" rfl rfl rfl (by decide)).2 (by decide)

/- Helper lemmas for the history invariant. -/

theorem addUpdateEntry_len10 (s : Storage) (e : UpdateEntry) :
    (StorageService.addUpdateEntry s e).history.length ≤ 10 := by
  rw [addUpdateEntry_history]
  exact List.length_take_le 10 _

theorem performIpCheck_history_len (s : Storage) (env : CycleEnv)
    (h : s.history.length ≤ 10) :
    (IpMonitor.performIpCheck s env).storage.history.length ≤ 10 := by
  have key : ∀ (s0 : Storage) (ip : String) (dIp : Option String) (acc : Bool),
      s0.history.length ≤ 10 →
      (IpMonitor.checkBody s0 env ip dIp acc).storage.history.length ≤ 10 := by
    intro s0 ip dIp acc h0
    simp only [IpMonitor.checkBody]
    repeat' split
    all_goals first
      | exact h0
      | exact addUpdateEntry_len10 _ _
  simp only [IpMonitor.performIpCheck]
  repeat' split
  all_goals first
    | exact addUpdateEntry_len10 _ _
    | exact key _ _ _ _ h

theorem runCycles_len (s : Storage) (envs : List CycleEnv)
    (h : s.history.length ≤ 10) :
    (runCycles s envs).history.length ≤ 10 := by
  induction envs generalizing s with
  | nil => exact h
  | cons e es ih =>
    simp only [runCycles]
    exact ih _ (performIpCheck_history_len s e h)

/-- Counterexample to claim C2 as stated: a changed cycle (persisted
198.51.100.1, detected 198.51.100.2, DNS read accessible) whose provider
write fails under real credentials appends TWO history entries, not exactly
one: the failed update entry plus the check_failed entry written by the
outer catch block when the write error is rethrown. -/
theorem c2_counterexample :
    ((IpMonitor.performIpCheck storA envB).effects.filter isAppendEffect).length = 2 ∧
    (IpMonitor.performIpCheck storA envB).storage.history.length =
      storA.history.length + 2 := by decide

/-- Claim C2 as amended: after any sequence of cycles the history holds at
most 10 entries; every cycle prepends its new entries at the front and trims
to 10, never editing older entries; a cycle whose three addresses agree
appends nothing; a changed cycle appends exactly one entry when the write
succeeded or test credentials are in use, and exactly two entries (the
failed update entry, then a check_failed entry) when the write fails under
real credentials with an accessible DNS read. -/
theorem c2_amended :
    (∀ (s : Storage) (envs : List CycleEnv), s.history.length ≤ 10 →
      (runCycles s envs).history.length ≤ 10) ∧
    (∀ (s : Storage) (env : CycleEnv) (d : String) (rec : Option DnsRecord),
      env.detected = some d → env.configReadFail = false →
      env.dnsRead = DnsReadResult.ok rec → env.persistIpFail = false →
      ((s.config.lastKnownIp = some d ∧ dnsIpOfRecord rec = some d →
        (IpMonitor.performIpCheck s env).storage.history = s.history) ∧
      (s.config.lastKnownIp ≠ some d ∨ dnsIpOfRecord rec ≠ some d →
        ((env.writeOk = true ∨ env.testCreds = true →
          (IpMonitor.performIpCheck s env).storage.history =
            (mainEntry s env d (dnsIpOfRecord rec) :: s.history).take 10) ∧
         (env.writeOk = false ∧ env.testCreds = false →
          (IpMonitor.performIpCheck s env).storage.history =
            (checkFailedEntry env :: mainEntry s env d (dnsIpOfRecord rec) ::
              s.history).take 10))))) := by
  constructor
  · exact runCycles_len
  · intro s env d rec hdet hcfg hdns hp
    constructor
    · rintro ⟨h1, h2⟩
      simp [IpMonitor.performIpCheck, IpMonitor.checkBody, hdet, hcfg, hdns, hp, h1, h2]
    · intro hch
      have hone : env.writeOk = true ∨ env.testCreds = true →
          (IpMonitor.performIpCheck s env).storage.history =
            (mainEntry s env d (dnsIpOfRecord rec) :: s.history).take 10 := by
        intro hcase
        rcases hch with h1 | h1 <;> rcases hcase with hw | ht <;>
          cases hw2 : env.writeOk <;> cases ht2 : env.testCreds <;>
          simp_all [IpMonitor.performIpCheck, IpMonitor.checkBody, hdet, hcfg, hdns, hp,
            StorageService.updateLastKnownIp, addUpdateEntry_history]
      refine ⟨hone, ?_⟩
      rintro ⟨hw, ht⟩
      rcases hch with h1 | h1 <;>
        simp_all [IpMonitor.performIpCheck, IpMonitor.checkBody, hdet, hcfg, hdns, hp,
          StorageService.updateLastKnownIp, addUpdateEntry_history, take_cons_take,
          List.take_take]

/-- Witness for the amended C2 at concrete cycles: a bounded history after a
sequence of cycles, and the two-entry shape of the failing-write cycle. -/
theorem c2_amended_witness :
    (runCycles storA [envA, envC]).history.length ≤ 10 ∧
    (IpMonitor.performIpCheck storA envB).storage.history =
      (checkFailedEntry envB :: mainEntry storA envB "198.51.100.2"
        (dnsIpOfRecord (some recA)) :: storA.history).take 10 :=
  ⟨c2_amended.1 storA [envA, envC] (by decide),
   ((c2_amended.2 storA envB "198.51.100.2" (some recA) rfl rfl rfl rfl).2
     (by decide)).2 ⟨rfl, rfl⟩⟩

/- Helper lemmas for the detection retry loop. -/

theorem runAttempts_all_fail (op : Nat → Option String) (h : ∀ k, op k = none)
    (start fuel : Nat) :
    IpDetector.runAttempts op start fuel = (none, fuel) := by
  induction fuel generalizing start with
  | zero => rfl
  | succ n ih => simp [IpDetector.runAttempts, h start, ih (start + 1)]

theorem runAttempts_none_all (op : Nat → Option String) (fuel : Nat) :
    ∀ start : Nat, (IpDetector.runAttempts op start fuel).1 = none →
      ∀ j, j < fuel → op (start + j) = none := by
  induction fuel with
  | zero => intro start h j hj; omega
  | succ n ih =>
    intro start h j hj
    cases hop : op start with
    | some ip => simp [IpDetector.runAttempts, hop] at h
    | none =>
      cases j with
      | zero => simpa using hop
      | succ j2 =>
        have h2 : (IpDetector.runAttempts op (start + 1) n).1 = none := by
          simpa [IpDetector.runAttempts, hop] using h
        have h3 := ih (start + 1) h2 j2 (by omega)
        have harith : start + 1 + j2 = start + (j2 + 1) := by omega
        rwa [harith] at h3

/-- Counterexample to claim C5 as stated: with source A failing every
attempt and source B answering 203.0.113.7, detection does return
203.0.113.7, but the total number of attempts against A is 4, not the
configured retry count MAX_RETRIES = 3: the loop runs attempt 0 through
MAX_RETRIES inclusive. -/
theorem c5_counterexample :
    (IpDetector.getCurrentIp [srcFailA, srcB]).1 = some "203.0.113.7" ∧
    (IpDetector.getCurrentIp [srcFailA, srcB]).2 = [4, 1] ∧
    IpDetector.MAX_RETRIES = 3 ∧
    (IpDetector.getCurrentIp [srcFailA, srcB]).2.head? ≠
      some IpDetector.MAX_RETRIES := by
  refine ⟨rfl, rfl, rfl, ?_⟩
  decide

/-- Claim C5 as amended: detection returns the address of the first source
that yields one, short-circuiting the remaining sources; it fails only when
every consulted source has failed all of its MAX_RETRIES + 1 calls (one
initial attempt plus MAX_RETRIES retries); and a source that always fails
is attempted exactly MAX_RETRIES + 1 = 4 times before falling through to
the next source. -/
theorem c5_amended :
    (∀ (a : Nat → Option String) (rest : List (Nat → Option String)),
      (∀ k, a k = none) →
      IpDetector.getCurrentIp (a :: rest) =
        ((IpDetector.getCurrentIp rest).1,
         (IpDetector.MAX_RETRIES + 1) :: (IpDetector.getCurrentIp rest).2)) ∧
    (∀ (b : Nat → Option String) (rest : List (Nat → Option String))
        (ip : String) (n : Nat),
      IpDetector.retryOperation b = (some ip, n) →
      IpDetector.getCurrentIp (b :: rest) = (some ip, [n])) ∧
    (∀ srcs : List (Nat → Option String),
      (IpDetector.getCurrentIp srcs).1 = none →
      ∀ src ∈ srcs, ∀ k, k < IpDetector.MAX_RETRIES + 1 → src k = none) := by
  refine ⟨?_, ?_, ?_⟩
  · intro a rest ha
    simp [IpDetector.getCurrentIp, IpDetector.retryOperation,
      runAttempts_all_fail a ha 0 (IpDetector.MAX_RETRIES + 1)]
  · intro b rest ip n hb
    simp [IpDetector.getCurrentIp, hb]
  · intro srcs
    induction srcs with
    | nil => intro h src hs; simp at hs
    | cons a rest ih =>
      intro h src hs k hk
      cases hr : (IpDetector.retryOperation a).1 with
      | some ip => simp [IpDetector.getCurrentIp, hr] at h
      | none =>
        have hrest : (IpDetector.getCurrentIp rest).1 = none := by
          simpa [IpDetector.getCurrentIp, hr] using h
        rcases List.mem_cons.mp hs with rfl | hmem
        · have := runAttempts_none_all src (IpDetector.MAX_RETRIES + 1) 0 hr k hk
          simpa using this
        · exact ih hrest src hmem k hk

/-- Witness for the amended C5 at the concrete sources of the spec
scenario. -/
theorem c5_amended_witness :
    IpDetector.getCurrentIp [srcFailA, srcB] =
      ((IpDetector.getCurrentIp [srcB]).1,
       (IpDetector.MAX_RETRIES + 1) :: (IpDetector.getCurrentIp [srcB]).2) ∧
    IpDetector.getCurrentIp [srcB] = (some "203.0.113.7", [1]) :=
  ⟨c5_amended.1 srcFailA [srcB] (fun _ => rfl),
   c5_amended.2.1 srcB [] "203.0.113.7" 1 rfl⟩

/-- Claim C7: for any configured interval between 1 and 60 minutes, finishing
a cycle (success or failure alike) arms a one-shot timer whose delay is the
interval read from the configuration as it stands at the end of that cycle,
so the next cycle starts exactly interval-minutes after the end of this one;
a later settings update does not change the already armed delay, and the
delay does not depend on the interval at process start. -/
theorem c7_schedule (st : EngineState) (env : CycleEnv) (i : Nat)
    (hrun : st.inFlight = true)
    (hI : (IpMonitor.performIpCheck st.storage env).storage.config.checkIntervalMinutes = i)
    (_h1 : 1 ≤ i) (_h60 : i ≤ 60) :
    (step st (Ev.finishCycle env)).timerDelay = some (i * 60 * 1000) ∧
    (step st (Ev.finishCycle env)).clock = st.clock ∧
    (step (step st (Ev.finishCycle env)) Ev.timerFire).inFlight = true ∧
    (step (step st (Ev.finishCycle env)) Ev.timerFire).clock =
      st.clock + i * 60 * 1000 ∧
    (∀ m : Nat, (step (step st (Ev.finishCycle env)) (Ev.settingsUpdate m)).timerDelay =
      some (i * 60 * 1000)) := by
  simp [step, hrun, scheduleDelayMs, hI]

/-- Witness for C7 at the concrete busy engine with a 5 minute interval. -/
theorem c7_schedule_witness :
    (step engineBusy (Ev.finishCycle envA)).timerDelay = some (5 * 60 * 1000) ∧
    (step engineBusy (Ev.finishCycle envA)).clock = engineBusy.clock ∧
    (step (step engineBusy (Ev.finishCycle envA)) Ev.timerFire).inFlight = true ∧
    (step (step engineBusy (Ev.finishCycle envA)) Ev.timerFire).clock =
      engineBusy.clock + 5 * 60 * 1000 ∧
    (∀ m : Nat, (step (step engineBusy (Ev.finishCycle envA))
        (Ev.settingsUpdate m)).timerDelay = some (5 * 60 * 1000)) :=
  c7_schedule engineBusy envA 5 rfl rfl (by decide) (by decide)

/-- Claim C8 names a behaviour the code does not have: evaluating the engine
loop at the failing trace shows that when stop() is called while the initial
cycle is in flight, the completion continuation of that cycle still calls
scheduleNextCheck, re-arming the timer, and the timer then fires and starts
another reconciliation cycle after stop - stop() only clears the pending
timeout and sets no flag the continuation would consult. -/
theorem c8_stop_bug :
    (runEngine engine0 [Ev.startEv, Ev.stopEv]).timerDelay = none ∧
    (runEngine engine0 [Ev.startEv, Ev.stopEv]).inFlight = true ∧
    (runEngine engine0 [Ev.startEv, Ev.stopEv, Ev.finishCycle envA]).timerDelay ≠ none ∧
    (runEngine engine0 [Ev.startEv, Ev.stopEv, Ev.finishCycle envA,
      Ev.timerFire]).inFlight = true ∧
    (runEngine engine0 [Ev.startEv, Ev.stopEv, Ev.finishCycle envA,
      Ev.timerFire]).monitorStatus = Status.checking := by
  refine ⟨rfl, rfl, ?_, rfl, rfl⟩
  decide
